import Mathlib

/-!
# RapidReach — verification of the SDR agent against its specification

Shallow embedding of the SDR service of the RapidReach repository:

* `sdr/agent.py` — email extraction from call transcripts
  (`extract_emails_from_transcript`), meeting-time extraction
  (`extract_meeting_time_from_transcript`, `_next_weekday`), and the
  eight-step pipeline endpoint (`run_sdr_endpoint`);
* `sdr/tools/phone_call.py` — phone validation (`_validate_phone`) and the
  outbound-call adapter (`make_phone_call`) with its cooldown map.

Python's `re` module is embedded by a small backtracking matcher
(`mmatch`) over an abstract syntax of exactly the constructs the
source's five email patterns and the meeting-time pattern use.  The
matcher explores alternatives in Python's order (leftmost start, greedy
quantifiers, alternation left to right), so the list of matches agrees
with `re.finditer` / `re.search` on the embedded patterns.  Strings are
treated as sequences of characters; character classes (`\d`, `\s`, `\w`)
are modelled by their ASCII meaning, which is how every transcript and
phone string in the service is produced.  `datetime` values are modelled
by a day count (with `weekday = day % 7`, day `0` a Monday), an hour and
a minute; `datetime.replace` with an out-of-range hour or minute raises
`ValueError`, modelled by `Except`.  Machine floats appear only as
`time.time()`; the cooldown arithmetic is modelled over natural-number
seconds.  Network and LLM calls are oracle parameters: a pipeline step's
awaited effect is an `Except String α` value, `error msg` standing for an
exception with text `msg`.
-/

namespace RapidReach

instance {ε α : Type} [DecidableEq ε] [DecidableEq α] : DecidableEq (Except ε α) := fun a b =>
  match a, b with
  | .ok x, .ok y => if h : x = y then .isTrue (by rw [h]) else .isFalse (by simp [h])
  | .error x, .error y => if h : x = y then .isTrue (by rw [h]) else .isFalse (by simp [h])
  | .ok _, .error _ => .isFalse (by simp)
  | .error _, .ok _ => .isFalse (by simp)

/-! ## Character classes (ASCII reading of Python's `re` classes) -/

/-- ASCII-faithful `str.lower()` (avoids `String.toLower`'s well-founded
recursion, which does not reduce in the kernel). -/
def strLower (s : String) : String := String.mk (s.data.map Char.toLower)

/-- `str[:n]` — the first `n` characters. -/
def pyTake (s : String) (n : Nat) : String := String.mk (s.data.take n)

/-- `' '.join(tokens)`. -/
def joinSpace (l : List String) : String :=
  String.mk (List.intercalate [' '] (l.map String.data))

def isWordChar (c : Char) : Bool := c.isAlpha || c.isDigit || c = '_'

def isWs (c : Char) : Bool :=
  c = ' ' || c = '\t' || c = '\n' || c = '\r' || c.toNat = 11 || c.toNat = 12

/-- `[A-Za-z0-9._%+-]`, the local-part class of the email patterns. -/
def isLocalChar (c : Char) : Bool :=
  c.isAlpha || c.isDigit || c = '.' || c = '_' || c = '%' || c = '+' || c = '-'

/-- `[A-Za-z0-9.-]`, the domain class of the standard email pattern. -/
def isDomChar (c : Char) : Bool := c.isAlpha || c.isDigit || c = '.' || c = '-'

def isAlnum (c : Char) : Bool := c.isAlpha || c.isDigit

/-! ## A small backtracking regex engine

Abstract syntax for the regex constructs used by `sdr/agent.py`:
character classes, case-insensitive literals, sequencing, ordered
alternation, greedy `*`/`+`/`?`/`{m,n}`, capture groups, the word
boundary `\b` and the negative lookbehind `(?<![A-Za-z])`.  `mmatch` is
a continuation-passing backtracking matcher; `fuel` bounds the depth of
the search (every loop iteration consumes at least one character, so the
generous fuel passed by `tryMatchAt` is never exhausted on the embedded
patterns). -/

inductive RE : Type where
  | eps : RE
  | cls : (Char → Bool) → RE
  | seq : RE → RE → RE
  | alt : RE → RE → RE
  | star : RE → RE
  | opt : RE → RE
  | group : Nat → RE → RE
  | nlbLetter : RE
  | wb : RE

/-- Case-insensitive literal, as a sequence of character classes. -/
def litCI (s : String) : RE :=
  s.data.foldr (fun c r => .seq (.cls (fun d => d.toLower = c.toLower)) r) .eps

/-- Greedy `+`. -/
def rePlus (a : RE) : RE := .seq a (.star a)

/-- Greedy `{n,}`. -/
def reAtLeast (a : RE) : Nat → RE
  | 0 => .star a
  | n + 1 => .seq a (reAtLeast a n)

/-- Greedy `{0,n}`. -/
def reUpTo (a : RE) : Nat → RE
  | 0 => .eps
  | n + 1 => .opt (.seq a (reUpTo a n))

/-- Greedy `{m,m+k}`. -/
def reRange (a : RE) (m k : Nat) : RE :=
  match m with
  | 0 => reUpTo a k
  | m + 1 => .seq a (reRange a m k)

/-- Ordered alternation of a non-empty list (first alternative preferred). -/
def reAltList : List RE → RE
  | [] => .eps
  | [a] => a
  | a :: rest => .alt a (reAltList rest)

abbrev Chars := Array Char

abbrev GroupL := List (Nat × Nat × Nat)

abbrev MRes := GroupL × Nat

/-- Backtracking matcher.  `k` is the continuation receiving the position
after the current piece and the captures so far; alternatives are tried
in Python's preference order, and on failure of the whole continuation
the next alternative is tried. -/
def mmatch (t : Chars) : Nat → RE → Nat → GroupL → (Nat → GroupL → Option MRes) → Option MRes
  | 0, _, _, _, _ => none
  | fuel + 1, re, i, g, k =>
    match re with
    | .eps => k i g
    | .cls p =>
      match t.get? i with
      | some c => if p c then k (i + 1) g else none
      | none => none
    | .seq a b => mmatch t fuel a i g (fun j g2 => mmatch t fuel b j g2 k)
    | .alt a b =>
      match mmatch t fuel a i g k with
      | some r => some r
      | none => mmatch t fuel b i g k
    | .star a =>
      match mmatch t fuel a i g
          (fun j g2 => if i < j then mmatch t fuel (.star a) j g2 k else none) with
      | some r => some r
      | none => k i g
    | .opt a =>
      match mmatch t fuel a i g k with
      | some r => some r
      | none => k i g
    | .group n a => mmatch t fuel a i g (fun j g2 => k j ((n, i, j) :: g2))
    | .nlbLetter =>
      if i = 0 then k i g
      else
        match t.get? (i - 1) with
        | some c => if c.isAlpha then none else k i g
        | none => k i g
    | .wb =>
      let prevw := match t.get? (i - 1) with
        | some c => 0 < i && isWordChar c
        | none => false
      let curw := match t.get? i with
        | some c => isWordChar c
        | none => false
      if prevw ≠ curw then k i g else none

structure PyMatch where
  mstart : Nat
  mstop : Nat
  groups : GroupL
  deriving Repr, DecidableEq

def engineFuel (t : Chars) : Nat := 200 * (t.size + 2)

/-- Try to match `re` exactly at position `s` (Python's scan step). -/
def tryMatchAt (t : Chars) (re : RE) (s : Nat) : Option PyMatch :=
  match mmatch t (engineFuel t) re s [] (fun j g => some (g, j)) with
  | some (g, j) => some ⟨s, j, g⟩
  | none => none

def finditerAux (t : Chars) (re : RE) : Nat → Nat → List PyMatch
  | 0, _ => []
  | fuel + 1, s =>
    if s > t.size then []
    else
      match tryMatchAt t re s with
      | some m => m :: finditerAux t re fuel (if s < m.mstop then m.mstop else s + 1)
      | none => finditerAux t re fuel (s + 1)

/-- `re.finditer`: all non-overlapping matches, leftmost first. -/
def finditer (t : Chars) (re : RE) : List PyMatch := finditerAux t re (t.size + 2) 0

/-- `re.search`: the first match, if any. -/
def searchRE (t : Chars) (re : RE) : Option PyMatch := (finditer t re).head?

def sliceStr (t : Chars) (a b : Nat) : String :=
  String.mk ((t.toList.drop a).take (b - a))

/-- `m.group(n)`: the capture of group `n` on the successful path
(`none` when the group did not participate). -/
def groupStr (t : Chars) (m : PyMatch) (n : Nat) : Option String :=
  match m.groups.lookup n with
  | some (a, b) => some (sliceStr t a b)
  | none => none

/-- `m.group()`: the whole matched text. -/
def matchStr (t : Chars) (m : PyMatch) : String := sliceStr t m.mstart m.mstop

def toChars (s : String) : Chars := s.data.toArray

/-! ## Email extraction (`sdr/agent.py`, `extract_emails_from_transcript`)

The five candidate patterns of the source, in its order and with its
priority scores 100/90/85/80/75. -/

/-- `_NUMBER_WORDS_MAP` as the ordered association list produced by
`sorted(_NUMBER_WORDS_MAP.items(), key=len, reverse=True)` (Python's
stable sort of the dict's insertion order). -/
def numberWordsSorted : List (String × String) :=
  [("seventeen", "17"), ("thirteen", "13"), ("fourteen", "14"), ("eighteen", "18"),
   ("nineteen", "19"), ("fifteen", "15"), ("sixteen", "16"), ("seventy", "70"),
   ("eleven", "11"), ("twelve", "12"), ("twenty", "20"), ("thirty", "30"),
   ("eighty", "80"), ("ninety", "90"), ("three", "3"), ("seven", "7"),
   ("eight", "8"), ("forty", "40"), ("fifty", "50"), ("sixty", "60"),
   ("zero", "0"), ("four", "4"), ("five", "5"), ("nine", "9"),
   ("one", "1"), ("two", "2"), ("six", "6"), ("ten", "10"), ("oh", "0")]

/-- The apostrophe character (three stop-words of the source contain it). -/
def apo : Char := Char.ofNat 39

/-- `_INVALID_SOLO_USERNAMES`: number words plus the stop-word list. -/
def invalidSoloUsernames : List String :=
  (numberWordsSorted.map Prod.fst) ++
  ["wednesday", "thursday", "monday", "tuesday", "friday", "saturday", "sunday",
   "call", "look", "looking", "reach", "meet", "available", "scheduled",
   "appointment", "meeting", "time", "address", "number", "phone", "business",
   "interested", "discussed", "contact", "march", "april", "may", "june",
   "january", "february", "july", "august", "september", "october", "november",
   "december", "invitation", "information", "provide", "discuss", "touch",
   "email", "your", "that", "this", "with", "from", "have", "been",
   "a", "i", "my", "me", "is", "it", "in", "on", "to", "of", "or", "an",
   "the", "and", "for", "but", "not", "are", "was", "has", "had", "his",
   "her", "our", "can", "you", "all", "its"]

/-- `_STRIP_LEADING`. -/
def stripLeading : List String :=
  ["your", "my", "is", "email", "address", "it", "its",
   "it" ++ apo.toString ++ "s", "that" ++ apo.toString ++ "s", "thats", "the", "a"]

/-- Pattern 1: `[A-Za-z0-9._%+-]+@[A-Za-z0-9.-]+\.[A-Za-z]{2,}`. -/
def emailRe1 : RE :=
  .seq (rePlus (.cls isLocalChar))
    (.seq (.cls (· = '@'))
      (.seq (rePlus (.cls isDomChar))
        (.seq (.cls (· = '.')) (reAtLeast (.cls Char.isAlpha) 2))))

/-- Pattern 2: `\b([A-Za-z0-9._%+-]{2,})\s+at\s+([A-Za-z0-9]+\.[A-Za-z]{2,})\b`. -/
def emailRe2 : RE :=
  .seq .wb
    (.seq (.group 1 (reAtLeast (.cls isLocalChar) 2))
      (.seq (rePlus (.cls isWs))
        (.seq (litCI "at")
          (.seq (rePlus (.cls isWs))
            (.seq (.group 2
                (.seq (rePlus (.cls isAlnum))
                  (.seq (.cls (· = '.')) (reAtLeast (.cls Char.isAlpha) 2))))
              .wb)))))

/-- Pattern 3: `\b([A-Za-z0-9._%+-]{2,})\s+at\s+([A-Za-z0-9]+)\s+dot\s+([A-Za-z]{2,})\b`. -/
def emailRe3 : RE :=
  .seq .wb
    (.seq (.group 1 (reAtLeast (.cls isLocalChar) 2))
      (.seq (rePlus (.cls isWs))
        (.seq (litCI "at")
          (.seq (rePlus (.cls isWs))
            (.seq (.group 2 (rePlus (.cls isAlnum)))
              (.seq (rePlus (.cls isWs))
                (.seq (litCI "dot")
                  (.seq (rePlus (.cls isWs))
                    (.seq (.group 3 (reAtLeast (.cls Char.isAlpha) 2)) .wb)))))))))

/-- `_tok`: `(?:[A-Za-z]|<number words>|\d+|[A-Za-z]{2,6})`, alternatives in
the source's order. -/
def tokRE : RE :=
  reAltList
    ([.cls Char.isAlpha] ++
     (numberWordsSorted.map (fun wd => litCI wd.1)) ++
     [rePlus (.cls Char.isDigit), reRange (.cls Char.isAlpha) 2 4])

/-- The spelled-out username: `{_tok}(?:\s+{_tok})+`. -/
def spelledRE : RE :=
  .seq tokRE (rePlus (.seq (rePlus (.cls isWs)) tokRE))

/-- Pattern 4: `(?<![A-Za-z])(<spelled>)\s+at\s+([A-Za-z0-9]+)\s+dot\s+([A-Za-z]{2,})\b`. -/
def emailRe4 : RE :=
  .seq .nlbLetter
    (.seq (.group 1 spelledRE)
      (.seq (rePlus (.cls isWs))
        (.seq (litCI "at")
          (.seq (rePlus (.cls isWs))
            (.seq (.group 2 (rePlus (.cls isAlnum)))
              (.seq (rePlus (.cls isWs))
                (.seq (litCI "dot")
                  (.seq (rePlus (.cls isWs))
                    (.seq (.group 3 (reAtLeast (.cls Char.isAlpha) 2)) .wb)))))))))

/-- Pattern 5: `(?<![A-Za-z])(<spelled>)\s+at\s+([A-Za-z0-9]+\.[A-Za-z]{2,})\b`. -/
def emailRe5 : RE :=
  .seq .nlbLetter
    (.seq (.group 1 spelledRE)
      (.seq (rePlus (.cls isWs))
        (.seq (litCI "at")
          (.seq (rePlus (.cls isWs))
            (.seq (.group 2
                (.seq (rePlus (.cls isAlnum))
                  (.seq (.cls (· = '.')) (reAtLeast (.cls Char.isAlpha) 2))))
              .wb)))))

/-! Helpers mirroring the Python string processing of patterns 4 and 5. -/

/-- `str.split()`: split on whitespace runs, dropping empty pieces. -/
def pySplit (s : String) : List String :=
  ((s.data.splitOnP isWs).filter (· ≠ [])).map String.mk

/-- `\b<word>\b` for a number word (used by the `re.sub` replacement). -/
def wordRE (w : String) : RE := .seq .wb (.seq (litCI w) .wb)

/-- Replace the spans `ms` (disjoint, ascending) of `t` by `d`. -/
def spliceAll (d : List Char) : List Char → Nat → List (Nat × Nat) → List Char
  | rest, _, [] => rest
  | rest, i, (a, b) :: ms =>
    (rest.take (a - i)) ++ d ++ spliceAll d (rest.drop (b - i)) b ms

/-- `re.sub(rf'\b{w}\b', d, s, flags=re.IGNORECASE)`. -/
def pySubWord (w d s : String) : String :=
  let t := toChars s
  let ms := (finditer t (wordRE w)).map (fun m => (m.mstart, m.mstop))
  String.mk (spliceAll d.data t.toList 0 ms)

/-- The number-word substitution loop of patterns 4 and 5. -/
def numberWordSubAll (s : String) : String :=
  numberWordsSorted.foldl (fun acc wd => pySubWord wd.1 wd.2 acc) s

/-- `re.sub(r'\s+', '', s)`. -/
def removeWs (s : String) : String := String.mk (s.data.filter (fun c => ¬ isWs c))

/-- Drop leading `_STRIP_LEADING` tokens (the `while tokens and ...` loop). -/
def dropLeadingStops : List String → List String
  | [] => []
  | w :: ws => if stripLeading.contains (strLower w) then dropLeadingStops ws else w :: ws

/-- The cleanup applied to a spelled-out username capture: strip leading
stop-words, substitute number words, remove whitespace, keep only results
of length at least 3. -/
def processSpelled (raw : String) : Option String :=
  let tokens := dropLeadingStops (pySplit raw)
  if tokens.isEmpty then none
  else
    let cleaned := removeWs (numberWordSubAll (joinSpace tokens))
    if 3 ≤ cleaned.length then some cleaned else none

def form1Candidates (t : Chars) : List (Nat × String) :=
  (finditer t emailRe1).map (fun m => (100, matchStr t m))

def form2Candidates (t : Chars) : List (Nat × String) :=
  (finditer t emailRe2).filterMap fun m =>
    match groupStr t m 1, groupStr t m 2 with
    | some u, some d =>
      if invalidSoloUsernames.contains (strLower u) then none
      else some (90, u ++ "@" ++ d)
    | _, _ => none

def form3Candidates (t : Chars) : List (Nat × String) :=
  (finditer t emailRe3).filterMap fun m =>
    match groupStr t m 1, groupStr t m 2, groupStr t m 3 with
    | some u, some d, some tld =>
      if invalidSoloUsernames.contains (strLower u) then none
      else some (85, u ++ "@" ++ d ++ "." ++ tld)
    | _, _, _ => none

def form4Candidates (t : Chars) : List (Nat × String) :=
  (finditer t emailRe4).filterMap fun m =>
    match groupStr t m 1, groupStr t m 2, groupStr t m 3 with
    | some raw, some d, some tld =>
      (processSpelled raw).map (fun cleaned => (80, cleaned ++ "@" ++ d ++ "." ++ tld))
    | _, _, _ => none

def form5Candidates (t : Chars) : List (Nat × String) :=
  (finditer t emailRe5).filterMap fun m =>
    match groupStr t m 1, groupStr t m 2 with
    | some raw, some d =>
      (processSpelled raw).map (fun cleaned => (75, cleaned ++ "@" ++ d))
    | _, _ => none

/-- All candidates, pooled in the source's order. -/
def allCandidates (text : String) : List (Nat × String) :=
  let t := toChars text
  form1Candidates t ++ form2Candidates t ++ form3Candidates t ++
  form4Candidates t ++ form5Candidates t

/-- Stable insertion into a priority-descending list (an element goes
before every element of strictly smaller priority and after equal ones),
so that `sortByPrioDesc` is exactly Python's stable
`candidates.sort(key=lambda x: -x[0])`. -/
def insertByPrio (x : Nat × String) : List (Nat × String) → List (Nat × String)
  | [] => [x]
  | y :: ys => if x.1 < y.1 then y :: insertByPrio x ys else x :: y :: ys

def sortByPrioDesc (l : List (Nat × String)) : List (Nat × String) :=
  l.foldr insertByPrio []

/-- `email.lower().strip('.')`. -/
def normEmail (e : String) : String :=
  String.mk ((((strLower e).data.dropWhile (· = '.')).reverse.dropWhile (· = '.')).reverse)

/-- The final de-duplication loop, keeping the priority of the first
(best) occurrence of each normalised email. -/
def dedupRanked : List String → List (Nat × String) → List (Nat × String)
  | _, [] => []
  | seen, (p, e) :: es =>
    if seen.contains e then dedupRanked seen es
    else (p, e) :: dedupRanked (e :: seen) es

/-- The extraction result together with each email's form priority. -/
def rankedEmails (text : String) : List (Nat × String) :=
  dedupRanked [] ((sortByPrioDesc (allCandidates text)).map (fun pe => (pe.1, normEmail pe.2)))

/-- `extract_emails_from_transcript`. -/
def extract_emails_from_transcript (text : String) : List String :=
  (rankedEmails text).map Prod.snd

/-! ## Meeting-time extraction (`sdr/agent.py`)

`datetime` is modelled by a day count (day `0` a Monday, so
`weekday = day % 7` matches Python's Monday-is-0 convention), an hour
and a minute; seconds and microseconds (both zeroed by the source's
`replace`) are not carried.  `datetime.replace` raises `ValueError` on
an out-of-range hour or minute, modelled by `Except String`. -/

structure PyDateTime where
  day : Nat
  hour : Nat
  minute : Nat
  deriving Repr, DecidableEq

/-- `datetime.weekday()`: 0 = Monday … 6 = Sunday. -/
def PyDateTime.weekday (d : PyDateTime) : Nat := d.day % 7

/-- `_next_weekday`: the next occurrence of a weekday strictly after
`base` (1–7 days ahead), keeping `base`'s time of day. -/
def next_weekday (dayIndex : Nat) (base : PyDateTime) : PyDateTime :=
  let ahead : Int := (dayIndex : Int) - (base.weekday : Int)
  let ahead : Int := if ahead ≤ 0 then ahead + 7 else ahead
  { base with day := base.day + ahead.toNat }

/-- `datetime.replace(hour=h, minute=m, second=0, microsecond=0)`;
raises `ValueError` outside the valid ranges (hour checked first). -/
def replaceTime (d : PyDateTime) (h m : Nat) : Except String PyDateTime :=
  if 23 < h then .error "hour must be in 0..23"
  else if 59 < m then .error "minute must be in 0..59"
  else .ok { d with hour := h, minute := m }

/-- `_DAY_NAMES`, in the source's order. -/
def dayNames : List (String × Nat) :=
  [("monday", 0), ("tuesday", 1), ("wednesday", 2), ("thursday", 3),
   ("friday", 4), ("saturday", 5), ("sunday", 6)]

/-- `_TIME_WORDS`, in the source's order. -/
def timeWords : List (String × Nat) :=
  [("one", 1), ("two", 2), ("three", 3), ("four", 4), ("five", 5),
   ("six", 6), ("seven", 7), ("eight", 8), ("nine", 9), ("ten", 10),
   ("eleven", 11), ("twelve", 12)]

def clsCI (c : Char) : RE := .cls (fun d => d.toLower = c)

/-- `a\.?m\.?` / `p\.?m\.?`. -/
def ampmDotted (c : Char) : RE :=
  .seq (clsCI c)
    (.seq (.opt (.cls (· = '.'))) (.seq (clsCI 'm') (.opt (.cls (· = '.')))))

/-- The time pattern of `extract_meeting_time_from_transcript`:
`\b(<day>)\s+(?:at\s+)?(\d{1,2}|<time words>)(?::(\d{2}))?\s*(a\.?m\.?|p\.?m\.?|am|pm)?`. -/
def meetRE : RE :=
  .seq .wb
    (.seq (.group 1 (reAltList (dayNames.map (fun d => litCI d.1))))
      (.seq (rePlus (.cls isWs))
        (.seq (.opt (.seq (litCI "at") (rePlus (.cls isWs))))
          (.seq (.group 2
              (reAltList
                ([reRange (.cls Char.isDigit) 1 1] ++ timeWords.map (fun w => litCI w.1))))
            (.seq (.opt (.seq (.cls (· = ':')) (.group 3 (reRange (.cls Char.isDigit) 2 0))))
              (.seq (.star (.cls isWs)) (.opt (.group 4
                (reAltList [ampmDotted 'a', ampmDotted 'p', litCI "am", litCI "pm"])))))))))

/-- `int(...)` on a non-empty string of decimal digits. -/
def parseNat (s : String) : Nat :=
  s.data.foldl (fun n c => 10 * n + (c.toNat - 48)) 0

def removeDots (s : String) : String := String.mk (s.data.filter (· ≠ '.'))

/-- The hour-resolution rules applied once the pattern matched. -/
def resolveHour (ampm : String) (hour : Nat) : Nat :=
  if ampm = "pm" ∧ hour < 12 then hour + 12
  else if ampm = "am" ∧ hour = 12 then 0
  else if ampm = "" ∧ 1 ≤ hour ∧ hour ≤ 7 then hour + 12
  else hour

/-- The raw (day index, hour, minute) read off a match of `meetRE`. -/
def meetFields (t : Chars) (m : PyMatch) : Nat × Nat × Nat :=
  let hourRaw := (groupStr t m 2).getD ""
  let ampm := strLower (removeDots ((groupStr t m 4).getD ""))
  let hour := match timeWords.lookup hourRaw with
    | some h => h
    | none => parseNat hourRaw
  let minute := match groupStr t m 3 with
    | some s => parseNat s
    | none => 0
  let dayIdx := ((dayNames.lookup ((groupStr t m 1).getD ""))).getD 0
  (dayIdx, resolveHour ampm hour, minute)

/-- `extract_meeting_time_from_transcript`.  The `now` that the source
reads from the clock is a parameter. -/
def extract_meeting_time_from_transcript (now : PyDateTime) (transcript : String) :
    Except String PyDateTime :=
  let t := toChars (strLower transcript)
  match searchRE t meetRE with
  | some m =>
    let (dayIdx, hour, minute) := meetFields t m
    replaceTime (next_weekday dayIdx now) hour minute
  | none => replaceTime (next_weekday 2 now) 11 0

/-! ## Outbound call adapter (`sdr/tools/phone_call.py`)

`make_phone_call` is async and effectful: it reads configuration, reads
the process-wide cooldown map `_recent_calls`, possibly contacts the
telephony provider, and on successful placement writes the map.  The
embedding threads the map explicitly (an association list, most recent
binding first, mirroring dict update), takes the clock reading
`time.time()` as a natural number of seconds, and takes the provider's
behaviour as a parameter: `ProviderOutcome.raises msg` models an
exception anywhere between the client import and batch creation,
`ProviderOutcome.placed …` models a successful `batch_calls.create`
followed by the polling/transcript phase (whose own exceptions the
source catches locally).  The result reports whether the provider was
invoked at all. -/

structure PhoneConfig where
  api_key : String
  agent_id : String
  phone_number_id : String
  deriving Repr, DecidableEq

inductive ProviderOutcome where
  | raises (msg : String)
  | placed (batch_id : String) (transcript : String) (call_status : String)
      (conversation_id : String)
  deriving Repr, DecidableEq

/-- The JSON object `make_phone_call` returns, as structured data. -/
structure CallResult where
  success : Bool
  error : String := ""
  transcript : String := ""
  outcome : String := ""
  phone_number : String := ""
  business_name : String := ""
  conversation_id : String := ""
  batch_id : String := ""
  call_status : String := ""
  deriving Repr, DecidableEq

abbrev CooldownMap := List (String × Nat)

/-- `CALL_COOLDOWN_SECONDS`. -/
def CALL_COOLDOWN_SECONDS : Nat := 3600

/-- `_validate_phone`: strip non-digits, require at least 10, prefix a
country code `1` when exactly 10 digits that do not already start with
`1`, and prepend `+`. -/
def validate_phone (phone : String) : Option String :=
  let digits := phone.data.filter Char.isDigit
  if digits.length < 10 then none
  else
    let digits := if ¬ digits.head? = some '1' ∧ digits.length = 10
      then '1' :: digits else digits
    some (String.mk ('+' :: digits))

/-- `make_phone_call`.  Returns the call result, the cooldown map after
the call, and whether the provider was contacted. -/
def make_phone_call (cfg : PhoneConfig) (now : Nat) (recent : CooldownMap)
    (phone_number business_name : String) (provider : ProviderOutcome) :
    CallResult × CooldownMap × Bool :=
  if cfg.api_key = "" ∨ cfg.agent_id = "" then
    ({ success := false,
       error := "ElevenLabs API key or Agent ID not configured",
       outcome := "issue_appeared" }, recent, false)
  else
    match validate_phone phone_number with
    | none =>
      ({ success := false, error := "Invalid phone number: " ++ phone_number,
         outcome := "issue_appeared" }, recent, false)
    | some validated =>
      let last := (recent.lookup validated).getD 0
      if now - last < CALL_COOLDOWN_SECONDS then
        let minsAgo := (now - last) / 60
        ({ success := false,
           error := "Called " ++ validated ++ " " ++ toString minsAgo ++
             " min ago. Cooldown active.",
           outcome := "other" }, recent, false)
      else
        match provider with
        | .raises msg =>
          ({ success := false, error := msg, outcome := "issue_appeared" },
           recent, true)
        | .placed batch_id transcript call_status conversation_id =>
          ({ success := true,
             phone_number := validated,
             business_name := business_name,
             transcript :=
               if transcript = "" then "(call completed, transcript unavailable)"
               else transcript,
             conversation_id := conversation_id,
             batch_id := batch_id,
             call_status := call_status },
           (validated, now) :: recent, true)

/-! ## The eight-step pipeline (`sdr/agent.py`, `run_sdr_endpoint`)

Each step's awaited external effect (LLM runner, telephony, deck
service, mail, storage) is an oracle parameter; `Except.error msg`
models an exception with message `msg` raised inside the step's `try`.
The adapters `save_sdr_session` and `update_lead_status`
(`sdr/tools/bigquery_utils.py`) and the UI callback `notify_ui` catch
every exception internally and return a JSON string, so they are
modelled as plain strings and the endpoint's outer `except` is
unreachable once the step loop has begun.  JSON payloads that the
pipeline itself builds and re-parses (call result, email-send result,
classification) are modelled structurally.  The one validation the save
step performs — pydantic's check that `call_outcome` is one of the six
`CallOutcome` values when `SDRResult(**session_data)` is built — is
modelled with a schematic error text `sdrValidationMsg`. -/

structure SDRReq where
  business_name : String
  phone : String := ""
  email : String := ""
  address : String := ""
  city : String := ""
  place_id : String := ""
  lead_context : String := ""
  callback_url : String := ""
  skip_call : Bool := false
  deck_template : String := "professional"
  deriving Repr, DecidableEq

structure PipelineConfig where
  fallback_email : String
  sales_email : String
  deriving Repr, DecidableEq

structure DeckResponse where
  success : Bool
  error : String := ""
  filename : String := ""
  file_data : String := ""
  deriving Repr, DecidableEq

structure EmailSendResult where
  success : Bool
  error : String := ""
  message_id : String := ""
  deriving Repr, DecidableEq

structure StepOracles where
  research : Except String String
  proposal : Except String String
  fact_check : Except String String
  phone_call : Except String String
  classify : Except String String
  deck : Except String DeckResponse
  send_email : Except String EmailSendResult
  save_session : String := ""
  update_lead : String := ""
  deriving Repr

/-- The record passed to `save_sdr_session` (and pydantic `SDRResult`). -/
structure SessionData where
  session_id : String
  lead_place_id : String
  business_name : String
  research_summary : String
  proposal_summary : String
  call_transcript : String
  call_outcome : String
  email_sent : Bool
  email_subject : String
  created_at : String
  deriving Repr, DecidableEq

/-- The endpoint's response, extended with the observable intermediate
state the claims speak about (resolved email address, transcript,
outcome, and the record handed to the save adapter). -/
structure RunResult where
  status : String
  message : String := ""
  step_results : List (String × String) := []
  savedRecord : Option SessionData := none
  email_to : String := ""
  call_transcript : String := ""
  call_outcome : String := ""
  deriving Repr, DecidableEq

/-- Step 1/8 — research.  Returns (research summary, step entry). -/
def step1Research (req : SDRReq) (o : Except String String) : String × String :=
  match o with
  | .ok r => (r, "completed")
  | .error e =>
    ("Research unavailable for " ++ req.business_name ++ " in " ++ req.city ++ ".",
     "failed: " ++ e)

/-- Step 2/8 — draft proposal. -/
def step2Proposal (req : SDRReq) (o : Except String String) : String × String :=
  match o with
  | .ok p => (p, "completed")
  | .error e =>
    ("Website proposal for " ++ req.business_name ++ " — details to follow.",
     "failed: " ++ e)

/-- Step 3/8 — fact-check (keeps the current proposal on failure). -/
def step3FactCheck (current : String) (o : Except String String) : String × String :=
  match o with
  | .ok p => (p, "completed")
  | .error e => (current, "failed: " ++ e)

/-- Step 4/8 — phone call.  Returns (call transcript, step entry). -/
def step4Call (req : SDRReq) (o : Except String String) : String × String :=
  if req.skip_call then ("", "skipped")
  else
    match o with
    | .ok t => (t, "completed")
    | .error e => ("", "failed: " ++ e)

/-- Step 5/8 — classify.  Returns (call outcome, step entry). -/
def step5Classify (req : SDRReq) (transcript : String) (o : Except String String) :
    String × String :=
  if req.skip_call ∨ transcript = "" then
    ("other",
     "skipped (" ++ (if req.skip_call then "skip_call=True" else "no transcript") ++ ")")
  else
    match o with
    | .ok oc => (oc, "completed (" ++ oc ++ ")")
    | .error e => ("other", "failed: " ++ e)

/-- Step 6/8 — deck generation. -/
def step6Deck (o : Except String DeckResponse) : Option DeckResponse × String :=
  match o with
  | .error e => (none, "failed: " ++ e)
  | .ok d => if d.success then (some d, "completed") else (none, "failed: " ++ d.error)

/-- The destination-address resolution of step 7: request field, then
best transcript-mined candidate, then configured fallback. -/
def resolveEmailTo (reqEmail transcript fallback : String) : String :=
  let e1 :=
    if reqEmail = "" ∧ transcript ≠ "" then
      match extract_emails_from_transcript transcript with
      | e :: _ => e
      | [] => ""
    else reqEmail
  if e1 = "" ∧ fallback ≠ "" then fallback else e1

/-- Step 7/8 — send email.  Returns
(step entry, email-send result, email subject, resolved address).
The subject is assigned before the meeting-time extraction, which can
raise `ValueError` out of `datetime.replace`; any exception is caught at
the step boundary and also recorded as a failed send result. -/
def step7Email (cfg : PipelineConfig) (req : SDRReq) (transcript : String)
    (now : PyDateTime) (o : Except String EmailSendResult) :
    String × Option EmailSendResult × String × String :=
  let email_to := resolveEmailTo req.email transcript cfg.fallback_email
  if email_to = "" then
    ("failed: No email address available",
     some { success := false, error := "No email address available" }, "", email_to)
  else
    let subject := "Website Proposal for " ++ req.business_name ++ " — RapidReach"
    match extract_meeting_time_from_transcript now transcript with
    | .error e =>
      ("failed: " ++ e, some { success := false, error := e }, subject, email_to)
    | .ok _ =>
      match o with
      | .ok r => ("completed (to " ++ email_to ++ ")", some r, subject, email_to)
      | .error e =>
        ("failed: " ++ e, some { success := false, error := e }, subject, email_to)

/-- The six values of the `CallOutcome` enum. -/
def validOutcomes : List String :=
  ["interested", "agreed_to_email", "not_interested", "no_answer", "issue_appeared",
   "other"]

/-- Schematic text of the pydantic validation error raised by
`SDRResult(**session_data)` on a `call_outcome` outside the enum. -/
def sdrValidationMsg (outcome : String) : String :=
  "1 validation error for SDRResult: call_outcome " ++ outcome

/-- Step 8/8 — build the session record (text artifacts truncated to
5000 characters) and save it.  Returns (record passed to the save
adapter if validation passed, step entry). -/
def step8Save (data : SessionData) : Option SessionData × String :=
  if validOutcomes.contains data.call_outcome then (some data, "completed")
  else (none, "failed: " ++ sdrValidationMsg data.call_outcome)

/-- `email_sent` as computed by step 8 from the step-7 send result
(`json.loads(email_result).get("success", False)`, `False` when the
email step never produced a result). -/
def emailSentOf (r : Option EmailSendResult) : Bool :=
  match r with
  | some r => r.success
  | none => false

/-- `run_sdr_endpoint`: the full eight-step pipeline.  `session_id` and
`created_at` stand for the endpoint's `uuid.uuid4()` and
`datetime.utcnow().isoformat()` reads. -/
def run_sdr (cfg : PipelineConfig) (req : SDRReq) (ox : StepOracles)
    (now : PyDateTime) (session_id created_at : String) : RunResult :=
  let s1 := step1Research req ox.research
  let s2 := step2Proposal req ox.proposal
  let s3 := step3FactCheck s2.1 ox.fact_check
  let s4 := step4Call req ox.phone_call
  let s5 := step5Classify req s4.1 ox.classify
  let s6 := step6Deck ox.deck
  let s7 := step7Email cfg req s4.1 now ox.send_email
  let session_data : SessionData :=
    { session_id := session_id
      lead_place_id := req.place_id
      business_name := req.business_name
      research_summary := pyTake s1.1 5000
      proposal_summary := pyTake s3.1 5000
      call_transcript := pyTake s4.1 5000
      call_outcome := s5.1
      email_sent := emailSentOf s7.2.1
      email_subject := s7.2.2.1
      created_at := created_at }
  let s8 := step8Save session_data
  let _ := if req.place_id ≠ "" then ox.update_lead else ""
  { status := "success"
    step_results :=
      [("research", s1.2), ("proposal", s2.2), ("fact_check", s3.2),
       ("phone_call", s4.2), ("classify", s5.2), ("deck", s6.2),
       ("email", s7.1), ("save", s8.2)]
    savedRecord := s8.1
    email_to := s7.2.2.2
    call_transcript := s4.1
    call_outcome := s5.1 }

/-! ## Helper lemmas about the call adapter -/

/-- A successful `make_phone_call` implies configured credentials, a
valid phone number, a contacted provider, and a cooldown map extended
with the validated number at the current clock reading. -/
theorem make_phone_call_success_state (cfg : PhoneConfig) (now : Nat)
    (st : CooldownMap) (phone bn : String) (prov : ProviderOutcome)
    (h : (make_phone_call cfg now st phone bn prov).1.success = true) :
    ¬ (cfg.api_key = "" ∨ cfg.agent_id = "") ∧
    ∃ v, validate_phone phone = some v ∧
      (make_phone_call cfg now st phone bn prov).2.1 = (v, now) :: st ∧
      (make_phone_call cfg now st phone bn prov).2.2 = true := by
  by_cases hc : cfg.api_key = "" ∨ cfg.agent_id = ""
  · simp [make_phone_call, hc] at h
  · rcases hval : validate_phone phone with _ | v
    · simp [make_phone_call, hc, hval] at h
    · by_cases hcool : now - (st.lookup v).getD 0 < CALL_COOLDOWN_SECONDS
      · simp [make_phone_call, hc, hval, hcool] at h
      · cases prov with
        | raises msg => simp [make_phone_call, hc, hval, hcool] at h
        | placed b t s c =>
          refine ⟨hc, v, rfl, ?_, ?_⟩ <;> simp [make_phone_call, hc, hval, hcool]

/-- A failed `make_phone_call` leaves the cooldown map unchanged. -/
theorem make_phone_call_fail_state (cfg : PhoneConfig) (now : Nat)
    (st : CooldownMap) (phone bn : String) (prov : ProviderOutcome)
    (h : (make_phone_call cfg now st phone bn prov).1.success = false) :
    (make_phone_call cfg now st phone bn prov).2.1 = st := by
  by_cases hc : cfg.api_key = "" ∨ cfg.agent_id = ""
  · simp [make_phone_call, hc]
  · rcases hval : validate_phone phone with _ | v
    · simp [make_phone_call, hc, hval]
    · by_cases hcool : now - (st.lookup v).getD 0 < CALL_COOLDOWN_SECONDS
      · simp [make_phone_call, hc, hval, hcool]
      · cases prov with
        | raises msg => simp [make_phone_call, hc, hval, hcool]
        | placed b t s c => simp [make_phone_call, hc, hval, hcool] at h

/-! ## Claims about the call adapter -/

/-- C2, counterexample to the claim as stated: `"1234567890"` strips to
exactly 10 digits, yet `_validate_phone` does **not** prepend the country
code `1` (the source prepends it only when the 10 digits do not already
start with `1`), so the result is `+1234567890`, not `+11234567890`. -/
theorem C2_counterexample :
    ("1234567890".data.filter Char.isDigit).length = 10 ∧
    validate_phone "1234567890" = some "+1234567890" ∧
    "+1234567890" ≠ "+1" ++ "1234567890" := by decide

/-- C2 (amended): with API credentials configured, `make_phone_call`
normalizes by stripping non-digits; fewer than 10 digits gives a
`success = false` result with an `Invalid phone number` error, an empty
transcript and no provider contact; exactly 10 digits **not already
starting with `1`** get the country code `1` prepended; and every
validated number starts with `+`. -/
theorem C2_phone_validation (cfg : PhoneConfig) (now : Nat) (st : CooldownMap)
    (phone bn : String) (prov : ProviderOutcome)
    (hk : cfg.api_key ≠ "") (ha : cfg.agent_id ≠ "") :
    ((phone.data.filter Char.isDigit).length < 10 →
      make_phone_call cfg now st phone bn prov =
        ({ success := false, error := "Invalid phone number: " ++ phone,
           transcript := "", outcome := "issue_appeared" }, st, false)) ∧
    ((phone.data.filter Char.isDigit).length = 10 →
      ¬ (phone.data.filter Char.isDigit).head? = some '1' →
      validate_phone phone =
        some (String.mk ('+' :: '1' :: phone.data.filter Char.isDigit))) ∧
    (∀ v, validate_phone phone = some v → v.data.head? = some '+') := by
  refine ⟨?_, ?_, ?_⟩
  · intro hlen
    have hval : validate_phone phone = none := by simp [validate_phone, hlen]
    simp [make_phone_call, hk, ha, hval]
  · intro hlen hhead
    simp only [validate_phone]
    rw [if_neg (by omega), if_pos ⟨hhead, hlen⟩]
  · intro v hv
    simp only [validate_phone] at hv
    split at hv
    · exact absurd hv (by simp)
    · simp only [Option.some.injEq] at hv
      subst hv
      rfl

/-- C2, witness: a 7-digit phone number is rejected without contacting
the provider. -/
theorem C2_witness :
    make_phone_call ⟨"key", "agent", "pn"⟩ 0 [] "555-1234" "Biz" (.raises "x") =
      ({ success := false, error := "Invalid phone number: " ++ "555-1234",
         transcript := "", outcome := "issue_appeared" }, [], false) :=
  (C2_phone_validation ⟨"key", "agent", "pn"⟩ 0 [] "555-1234" "Biz" (.raises "x")
    (by decide) (by decide)).1 (by decide)

/-- C3: after a successful placement to a number, a second call whose
input normalizes to the same number within the 3600-second window is
rejected with the cooldown message carrying the elapsed minutes, and the
provider is contacted only by the first of the two invocations. -/
theorem C3_cooldown (cfg : PhoneConfig) (st : CooldownMap) (now1 now2 : Nat)
    (p1 p2 bn1 bn2 : String) (prov1 prov2 : ProviderOutcome) (v : String)
    (h1 : (make_phone_call cfg now1 st p1 bn1 prov1).1.success = true)
    (hv1 : validate_phone p1 = some v) (hv2 : validate_phone p2 = some v)
    (_hle : now1 ≤ now2) (hwin : now2 - now1 < CALL_COOLDOWN_SECONDS) :
    (make_phone_call cfg now2 (make_phone_call cfg now1 st p1 bn1 prov1).2.1
        p2 bn2 prov2).1.success = false ∧
    (make_phone_call cfg now2 (make_phone_call cfg now1 st p1 bn1 prov1).2.1
        p2 bn2 prov2).1.error =
      "Called " ++ v ++ " " ++ toString ((now2 - now1) / 60) ++
        " min ago. Cooldown active." ∧
    (make_phone_call cfg now1 st p1 bn1 prov1).2.2 = true ∧
    (make_phone_call cfg now2 (make_phone_call cfg now1 st p1 bn1 prov1).2.1
        p2 bn2 prov2).2.2 = false := by
  obtain ⟨hc, v', hv', hst, hinv⟩ :=
    make_phone_call_success_state cfg now1 st p1 bn1 prov1 h1
  rw [hv1] at hv'
  have hvv : v = v' := by exact (Option.some.injEq _ _).mp hv'
  subst hvv
  rw [hst]
  have hlook : (((v, now1) :: st).lookup v).getD 0 = now1 := by
    simp [List.lookup]
  have hcool : now2 - (((v, now1) :: st).lookup v).getD 0 < CALL_COOLDOWN_SECONDS := by
    rw [hlook]; exact hwin
  refine ⟨?_, ?_, hinv, ?_⟩ <;> simp [make_phone_call, hc, hv2, hcool, hlook, hwin]

/-- C3, witness: calling `5551234567` again 600 seconds after a
successful placement yields the cooldown rejection with `10 min ago`. -/
theorem C3_witness :
    (make_phone_call ⟨"key", "agent", "pn"⟩ 10600
        (make_phone_call ⟨"key", "agent", "pn"⟩ 10000 [] "5551234567" "Biz"
          (.placed "b1" "hi" "completed" "c1")).2.1
        "(555) 123-4567" "Biz" (.placed "b2" "t" "s" "c")).1.error =
      "Called " ++ "+15551234567" ++ " " ++ toString ((10600 - 10000) / 60) ++
        " min ago. Cooldown active." :=
  (C3_cooldown ⟨"key", "agent", "pn"⟩ [] 10000 10600 "5551234567" "(555) 123-4567"
    "Biz" "Biz" (.placed "b1" "hi" "completed" "c1") (.placed "b2" "t" "s" "c")
    "+15551234567" (by decide) (by decide) (by decide) (by decide) (by decide)).2.1

/-- C10: the cooldown map is written only by a successful placement — a
rejected or failed invocation returns the map unchanged, and a
successful one extends it with exactly the validated number at the
current time. -/
theorem C10_cooldown_map_mutation (cfg : PhoneConfig) (now : Nat) (st : CooldownMap)
    (phone bn : String) (prov : ProviderOutcome) :
    ((make_phone_call cfg now st phone bn prov).1.success = false →
      (make_phone_call cfg now st phone bn prov).2.1 = st) ∧
    ((make_phone_call cfg now st phone bn prov).1.success = true →
      ∃ v, validate_phone phone = some v ∧
        (make_phone_call cfg now st phone bn prov).2.1 = (v, now) :: st) := by
  constructor
  · exact make_phone_call_fail_state cfg now st phone bn prov
  · intro h
    obtain ⟨-, v, hv, hst, -⟩ := make_phone_call_success_state cfg now st phone bn prov h
    exact ⟨v, hv, hst⟩

/-- C10, witness: a provider exception during batch creation leaves the
cooldown map unchanged. -/
theorem C10_witness :
    (make_phone_call ⟨"key", "agent", "pn"⟩ 5000 [("+15550000000", 4000)]
        "5551234567" "Biz" (.raises "network down")).2.1 =
      [("+15550000000", 4000)] :=
  (C10_cooldown_map_mutation ⟨"key", "agent", "pn"⟩ 5000 [("+15550000000", 4000)]
    "5551234567" "Biz" (.raises "network down")).1 (by decide)

/-! ## Helper lemmas about meeting-time extraction -/

/-- `_next_weekday` lands on the requested weekday, strictly in the
future, at most seven days ahead, keeping the base's time of day. -/
theorem next_weekday_spec (k : Nat) (hk : k < 7) (base : PyDateTime) :
    (next_weekday k base).day % 7 = k ∧
    base.day < (next_weekday k base).day ∧
    (next_weekday k base).day ≤ base.day + 7 := by
  unfold next_weekday PyDateTime.weekday
  refine ⟨?_, ?_, ?_⟩ <;> (simp only; split) <;> omega

/-- Looking a key up in an association list whose values are all below a
bound gives a value below the bound (with default 0). -/
theorem lookup_day_lt (s : String) (l : List (String × Nat))
    (h : ∀ p ∈ l, p.2 < 7) : ((l.lookup s).getD 0) < 7 := by
  induction l with
  | nil => simp
  | cons a rest ih =>
    rcases a with ⟨k, v⟩
    by_cases hs : (s == k)
    · simpa [List.lookup, hs] using h (k, v) (by simp)
    · simp only [List.lookup, hs]
      exact ih (fun p hp => h p (List.mem_cons_of_mem _ hp))

/-- The day index read off a match of the meeting-time pattern is a
valid weekday index. -/
theorem meetFields_day_lt (t : Chars) (m : PyMatch) : (meetFields t m).1 < 7 := by
  unfold meetFields
  exact lookup_day_lt _ dayNames (by decide)

/-! ## Claims about meeting-time extraction -/

/-- C5, counterexample to the claim as stated: on the input
`"wednesday at 99"` the weekday-time pattern matches with hour 99, and
`datetime.replace(hour=99, …)` raises `ValueError` — the function does
not return a usable date-time for every input string. -/
theorem C5_counterexample :
    extract_meeting_time_from_transcript ⟨0, 0, 0⟩ "wednesday at 99" =
      .error "hour must be in 0..23" := by decide

/-- C5 (amended): the function returns a usable date-time whenever the
resolved hour is at most 23 and the minute at most 59 (`datetime.replace`
raises `ValueError` otherwise); in particular, for every input in which
the weekday-time pattern does not match it returns the next future
Wednesday at 11:00. -/
theorem C5_meeting_default (now : PyDateTime) (t : String) :
    (searchRE (toChars (strLower t)) meetRE = none →
      ∃ d, extract_meeting_time_from_transcript now t = .ok d ∧
        d.day % 7 = 2 ∧ now.day < d.day ∧ d.day ≤ now.day + 7 ∧
        d.hour = 11 ∧ d.minute = 0) ∧
    (∀ m, searchRE (toChars (strLower t)) meetRE = some m →
      (meetFields (toChars (strLower t)) m).2.1 ≤ 23 →
      (meetFields (toChars (strLower t)) m).2.2 ≤ 59 →
      (extract_meeting_time_from_transcript now t).isOk = true) := by
  constructor
  · intro hs
    refine ⟨{ next_weekday 2 now with hour := 11, minute := 0 }, ?_, ?_, ?_, ?_, rfl, rfl⟩
    · simp [extract_meeting_time_from_transcript, hs, replaceTime]
    · exact (next_weekday_spec 2 (by decide) now).1
    · exact (next_weekday_spec 2 (by decide) now).2.1
    · exact (next_weekday_spec 2 (by decide) now).2.2
  · intro m hm hh hmin
    rcases hf : meetFields (toChars (strLower t)) m with ⟨dayIdx, hour, minute⟩
    rw [hf] at hh hmin
    simp only at hh hmin
    simp [extract_meeting_time_from_transcript, hm, hf, replaceTime, Except.isOk,
      Except.toBool, Nat.not_lt.mpr hh, Nat.not_lt.mpr hmin]

/-- C5, witness: an irrelevant transcript yields the default next future
Wednesday, 11:00. -/
theorem C5_witness :
    ∃ d, extract_meeting_time_from_transcript ⟨700, 15, 37⟩ "no meeting mentioned" =
        .ok d ∧ d.day % 7 = 2 ∧ 700 < d.day ∧ d.day ≤ 700 + 7 ∧
      d.hour = 11 ∧ d.minute = 0 :=
  (C5_meeting_default ⟨700, 15, 37⟩ "no meeting mentioned").1 (by decide)

/-- C6: when the weekday-time pattern matches, the resolved hour obeys
the source's rules (`pm` with hour < 12 adds 12; `am` maps 12 to 0; no
marker with hour 1–7 adds 12), and any returned date carries exactly the
resolved hour and minute and falls on the next future occurrence of the
named weekday — strictly after today, at most seven days ahead. -/
theorem C6_hour_resolution (now : PyDateTime) (t : String) (m : PyMatch)
    (d : PyDateTime)
    (hm : searchRE (toChars (strLower t)) meetRE = some m)
    (hd : extract_meeting_time_from_transcript now t = .ok d) :
    d.hour = (meetFields (toChars (strLower t)) m).2.1 ∧
    d.minute = (meetFields (toChars (strLower t)) m).2.2 ∧
    d.day % 7 = (meetFields (toChars (strLower t)) m).1 ∧
    now.day < d.day ∧ d.day ≤ now.day + 7 ∧
    (∀ h, h < 12 → resolveHour "pm" h = h + 12) ∧
    resolveHour "am" 12 = 0 ∧
    (∀ h, 1 ≤ h → h ≤ 7 → resolveHour "" h = h + 12) := by
  have hlt : (meetFields (toChars (strLower t)) m).1 < 7 :=
    meetFields_day_lt (toChars (strLower t)) m
  rcases hf : meetFields (toChars (strLower t)) m with ⟨dayIdx, hour, minute⟩
  rw [hf] at hlt
  simp only at hlt
  simp only [extract_meeting_time_from_transcript, hm, hf] at hd
  simp only [replaceTime] at hd
  split at hd
  · exact absurd hd (by simp)
  · split at hd
    · exact absurd hd (by simp)
    · injection hd with hdv
      subst hdv
      obtain ⟨h1, h2, h3⟩ := next_weekday_spec dayIdx hlt now
      refine ⟨rfl, rfl, h1, h2, h3, ?_, ?_, ?_⟩
      · intro h hh; simp [resolveHour, hh]
      · simp [resolveHour]
      · intro h hh1 hh2; simp [resolveHour, hh1, hh2]

/-- C6, witness: for `"friday at 2 pm"` (from a Monday) the match
resolves to hour 14, minute 0, and lands on the Friday four days later. -/
theorem C6_witness :
    PyDateTime.hour ⟨704, 14, 0⟩ =
      (meetFields (toChars (strLower "friday at 2 pm"))
        ⟨0, 14, [(4, 12, 14), (2, 10, 11), (1, 0, 6)]⟩).2.1 ∧
    PyDateTime.minute ⟨704, 14, 0⟩ =
      (meetFields (toChars (strLower "friday at 2 pm"))
        ⟨0, 14, [(4, 12, 14), (2, 10, 11), (1, 0, 6)]⟩).2.2 ∧
    PyDateTime.day ⟨704, 14, 0⟩ % 7 =
      (meetFields (toChars (strLower "friday at 2 pm"))
        ⟨0, 14, [(4, 12, 14), (2, 10, 11), (1, 0, 6)]⟩).1 ∧
    PyDateTime.day ⟨700, 15, 37⟩ < PyDateTime.day ⟨704, 14, 0⟩ ∧
    PyDateTime.day ⟨704, 14, 0⟩ ≤ PyDateTime.day ⟨700, 15, 37⟩ + 7 ∧
    (∀ h, h < 12 → resolveHour "pm" h = h + 12) ∧
    resolveHour "am" 12 = 0 ∧
    (∀ h, 1 ≤ h → h ≤ 7 → resolveHour "" h = h + 12) :=
  C6_hour_resolution ⟨700, 15, 37⟩ "friday at 2 pm"
    ⟨0, 14, [(4, 12, 14), (2, 10, 11), (1, 0, 6)]⟩ ⟨704, 14, 0⟩
    (by decide) (by decide)

/-! ## Helper lemmas about the pipeline -/

/-- The resolved destination of the email step, on every control path. -/
theorem step7Email_email_to (cfg : PipelineConfig) (req : SDRReq)
    (transcript : String) (now : PyDateTime) (o : Except String EmailSendResult) :
    (step7Email cfg req transcript now o).2.2.2 =
      resolveEmailTo req.email transcript cfg.fallback_email := by
  simp only [step7Email]
  split
  · rfl
  · split
    · rfl
    · split <;> rfl

/-- When no destination resolves, the email step fails with the
`ValueError`'s message. -/
theorem step7Email_fail_entry (cfg : PipelineConfig) (req : SDRReq)
    (transcript : String) (now : PyDateTime) (o : Except String EmailSendResult)
    (h : resolveEmailTo req.email transcript cfg.fallback_email = "") :
    (step7Email cfg req transcript now o).1 = "failed: No email address available" := by
  simp [step7Email, h]

/-! ## Claims about the pipeline -/

/-- C1: for every request and every combination of step outcomes, the
pipeline's step map has exactly the eight entries in step order, an
exception in any step is caught at that step's boundary and recorded as
`failed: <message>` (every later step still executing — witnessed by the
presence of all eight entries whatever the oracles), and the top-level
status is `success` regardless of how many steps failed, the post-loop
adapters catching their own exceptions. -/
theorem C1_pipeline_steps (cfg : PipelineConfig) (req : SDRReq)
    (o1 o2 o3 o4 o5 : Except String String) (o6 : Except String DeckResponse)
    (o7 : Except String EmailSendResult) (os ou : String)
    (now : PyDateTime) (sid cat : String) :
    (run_sdr cfg req ⟨o1, o2, o3, o4, o5, o6, o7, os, ou⟩ now sid cat).status =
      "success" ∧
    (run_sdr cfg req ⟨o1, o2, o3, o4, o5, o6, o7, os, ou⟩ now sid
        cat).step_results.map Prod.fst =
      ["research", "proposal", "fact_check", "phone_call", "classify", "deck",
       "email", "save"] ∧
    (∀ e, o1 = .error e →
      (run_sdr cfg req ⟨o1, o2, o3, o4, o5, o6, o7, os, ou⟩ now sid
          cat).step_results.lookup "research" = some ("failed: " ++ e)) ∧
    (∀ e, o2 = .error e →
      (run_sdr cfg req ⟨o1, o2, o3, o4, o5, o6, o7, os, ou⟩ now sid
          cat).step_results.lookup "proposal" = some ("failed: " ++ e)) ∧
    (∀ e, o3 = .error e →
      (run_sdr cfg req ⟨o1, o2, o3, o4, o5, o6, o7, os, ou⟩ now sid
          cat).step_results.lookup "fact_check" = some ("failed: " ++ e)) ∧
    (∀ e, req.skip_call = false → o4 = .error e →
      (run_sdr cfg req ⟨o1, o2, o3, o4, o5, o6, o7, os, ou⟩ now sid
          cat).step_results.lookup "phone_call" = some ("failed: " ++ e)) ∧
    (∀ e, req.skip_call = false →
      (run_sdr cfg req ⟨o1, o2, o3, o4, o5, o6, o7, os, ou⟩ now sid
          cat).call_transcript ≠ "" →
      o5 = .error e →
      (run_sdr cfg req ⟨o1, o2, o3, o4, o5, o6, o7, os, ou⟩ now sid
          cat).step_results.lookup "classify" = some ("failed: " ++ e)) ∧
    (∀ e, o6 = .error e →
      (run_sdr cfg req ⟨o1, o2, o3, o4, o5, o6, o7, os, ou⟩ now sid
          cat).step_results.lookup "deck" = some ("failed: " ++ e)) ∧
    (∀ e d,
      (run_sdr cfg req ⟨o1, o2, o3, o4, o5, o6, o7, os, ou⟩ now sid
          cat).email_to ≠ "" →
      extract_meeting_time_from_transcript now
        (run_sdr cfg req ⟨o1, o2, o3, o4, o5, o6, o7, os, ou⟩ now sid
          cat).call_transcript = .ok d →
      o7 = .error e →
      (run_sdr cfg req ⟨o1, o2, o3, o4, o5, o6, o7, os, ou⟩ now sid
          cat).step_results.lookup "email" = some ("failed: " ++ e)) ∧
    (validOutcomes.contains
        (run_sdr cfg req ⟨o1, o2, o3, o4, o5, o6, o7, os, ou⟩ now sid
          cat).call_outcome = false →
      (run_sdr cfg req ⟨o1, o2, o3, o4, o5, o6, o7, os, ou⟩ now sid
          cat).step_results.lookup "save" =
        some ("failed: " ++ sdrValidationMsg
          (run_sdr cfg req ⟨o1, o2, o3, o4, o5, o6, o7, os, ou⟩ now sid
            cat).call_outcome)) := by
  refine ⟨rfl, rfl, ?_, ?_, ?_, ?_, ?_, ?_, ?_, ?_⟩
  · intro e h; subst h; rfl
  · intro e h; subst h; rfl
  · intro e h; subst h; rfl
  · intro e hsk h; subst h
    simp [run_sdr, step4Call, hsk, List.lookup]
  · intro e hsk ht h; subst h
    simp only [run_sdr, step4Call, hsk, if_false, Bool.false_eq_true] at ht ⊢
    simp [step5Classify, hsk, ht, List.lookup]
  · intro e h; subst h
    simp [run_sdr, step6Deck, List.lookup]
  · intro e d hto hmeet h; subst h
    simp only [run_sdr] at hto hmeet ⊢
    simp only [step7Email] at hto ⊢
    split at hto
    · rename_i hemp
      exact absurd hemp hto
    · rename_i hne
      rw [if_neg hne, hmeet]
      simp [List.lookup]
  · intro hout
    simp only [run_sdr] at hout ⊢
    have hcond : ¬ (validOutcomes.contains
        (step5Classify req (step4Call req o4).1 o5).1 = true) := by
      rw [hout]; decide
    simp only [step8Save]
    rw [if_neg hcond]
    simp [List.lookup]

/-- C1, witness: with every oracle failing and the call skipped, all
eight entries are present, the failures are recorded, and the status is
still `success`. -/
theorem C1_witness :
    (run_sdr ⟨"fb@x.io", "sales@x.io"⟩ { business_name := "Biz", city := "LA" }
        ⟨.error "r down", .error "p down", .error "f down", .error "c down",
         .error "cl down", .error "d down", .error "mail down", "", ""⟩
        ⟨700, 0, 0⟩ "sid" "cat").status = "success" ∧
    (run_sdr ⟨"fb@x.io", "sales@x.io"⟩ { business_name := "Biz", city := "LA" }
        ⟨.error "r down", .error "p down", .error "f down", .error "c down",
         .error "cl down", .error "d down", .error "mail down", "", ""⟩
        ⟨700, 0, 0⟩ "sid" "cat").step_results.map Prod.fst =
      ["research", "proposal", "fact_check", "phone_call", "classify", "deck",
       "email", "save"] ∧
    (run_sdr ⟨"fb@x.io", "sales@x.io"⟩ { business_name := "Biz", city := "LA" }
        ⟨.error "r down", .error "p down", .error "f down", .error "c down",
         .error "cl down", .error "d down", .error "mail down", "", ""⟩
        ⟨700, 0, 0⟩ "sid" "cat").step_results.lookup "research" =
      some ("failed: " ++ "r down") ∧
    (run_sdr ⟨"fb@x.io", "sales@x.io"⟩ { business_name := "Biz", city := "LA" }
        ⟨.error "r down", .error "p down", .error "f down", .error "c down",
         .error "cl down", .error "d down", .error "mail down", "", ""⟩
        ⟨700, 0, 0⟩ "sid" "cat").step_results.lookup "phone_call" =
      some ("failed: " ++ "c down") :=
  have h := C1_pipeline_steps ⟨"fb@x.io", "sales@x.io"⟩
    { business_name := "Biz", city := "LA" }
    (.error "r down") (.error "p down") (.error "f down") (.error "c down")
    (.error "cl down") (.error "d down") (.error "mail down") "" ""
    ⟨700, 0, 0⟩ "sid" "cat"
  ⟨h.1, h.2.1, h.2.2.1 "r down" rfl, h.2.2.2.2.2.1 "c down" rfl rfl⟩

/-- C8: the send-email step resolves its destination in strict priority
order — the request's email field when non-empty, else the best
transcript-mined candidate, else the configured fallback — and when no
address resolves the step is marked failed with a descriptive reason
while the pipeline still returns `success`. -/
theorem C8_email_resolution (cfg : PipelineConfig) (req : SDRReq)
    (o1 o2 o3 o4 o5 : Except String String) (o6 : Except String DeckResponse)
    (o7 : Except String EmailSendResult) (os ou : String)
    (now : PyDateTime) (sid cat : String) :
    (req.email ≠ "" →
      (run_sdr cfg req ⟨o1, o2, o3, o4, o5, o6, o7, os, ou⟩ now sid cat).email_to =
        req.email) ∧
    (∀ e es, req.email = "" →
      (run_sdr cfg req ⟨o1, o2, o3, o4, o5, o6, o7, os, ou⟩ now sid
        cat).call_transcript ≠ "" →
      extract_emails_from_transcript
        (run_sdr cfg req ⟨o1, o2, o3, o4, o5, o6, o7, os, ou⟩ now sid
          cat).call_transcript = e :: es →
      e ≠ "" →
      (run_sdr cfg req ⟨o1, o2, o3, o4, o5, o6, o7, os, ou⟩ now sid cat).email_to =
        e) ∧
    (req.email = "" →
      ((run_sdr cfg req ⟨o1, o2, o3, o4, o5, o6, o7, os, ou⟩ now sid
          cat).call_transcript = "" ∨
        extract_emails_from_transcript
          (run_sdr cfg req ⟨o1, o2, o3, o4, o5, o6, o7, os, ou⟩ now sid
            cat).call_transcript = []) →
      (run_sdr cfg req ⟨o1, o2, o3, o4, o5, o6, o7, os, ou⟩ now sid cat).email_to =
        cfg.fallback_email) ∧
    ((run_sdr cfg req ⟨o1, o2, o3, o4, o5, o6, o7, os, ou⟩ now sid cat).email_to =
        "" →
      (run_sdr cfg req ⟨o1, o2, o3, o4, o5, o6, o7, os, ou⟩ now sid
          cat).step_results.lookup "email" =
        some "failed: No email address available" ∧
      (run_sdr cfg req ⟨o1, o2, o3, o4, o5, o6, o7, os, ou⟩ now sid cat).status =
        "success") := by
  refine ⟨?_, ?_, ?_, ?_⟩
  · intro hne
    simp only [run_sdr, step7Email_email_to]
    simp [resolveEmailTo, hne]
  · intro e es he ht hex hene
    simp only [run_sdr, step7Email_email_to] at ht hex ⊢
    simp [resolveEmailTo, he, ht, hex, hene]
  · intro he hcase
    simp only [run_sdr, step7Email_email_to] at hcase ⊢
    by_cases hf : cfg.fallback_email = ""
    · rcases hcase with ht | hex
      · simp [resolveEmailTo, he, ht, hf]
      · by_cases ht : (step4Call req o4).1 = ""
        · simp [resolveEmailTo, he, ht, hf]
        · simp [resolveEmailTo, he, ht, hex, hf]
    · rcases hcase with ht | hex
      · simp [resolveEmailTo, he, ht, hf]
      · by_cases ht : (step4Call req o4).1 = ""
        · simp [resolveEmailTo, he, ht, hf]
        · simp [resolveEmailTo, he, ht, hex, hf]
  · intro hto
    simp only [run_sdr, step7Email_email_to] at hto ⊢
    refine ⟨?_, trivial⟩
    simp [List.lookup, step7Email_fail_entry cfg req _ now o7 hto]

/-- C9, counterexample to the claim as stated: a 5001-character
`business_name` flows uncapped into the persisted record — only the
research summary, proposal and transcript are truncated to 5000
characters. -/
theorem C9_counterexample :
    ((run_sdr ⟨"", ""⟩
        { business_name := String.mk (List.replicate 5001 'a'), skip_call := true }
        ⟨.ok "r", .ok "p", .ok "f", .ok "", .ok "other", .error "no deck",
         .error "no mail", "", ""⟩
        ⟨700, 0, 0⟩ "sid" "cat").savedRecord.map
      (fun rec => rec.business_name.length)) = some 5001 ∧ ¬ (5001 ≤ 5000) := by
  refine ⟨?_, by decide⟩
  have hrec : (run_sdr ⟨"", ""⟩
      { business_name := String.mk (List.replicate 5001 'a'), skip_call := true }
      ⟨.ok "r", .ok "p", .ok "f", .ok "", .ok "other", .error "no deck",
       .error "no mail", "", ""⟩
      ⟨700, 0, 0⟩ "sid" "cat").savedRecord =
      some { session_id := "sid", lead_place_id := "",
             business_name := String.mk (List.replicate 5001 'a'),
             research_summary := "r", proposal_summary := "f",
             call_transcript := "", call_outcome := "other",
             email_sent := false, email_subject := "", created_at := "cat" } := rfl
  rw [hrec]
  show some (List.replicate 5001 'a').length = some 5001
  rw [List.length_replicate]

/-- A record accepted by the save step is exactly the built session
record. -/
theorem step8Save_some (d rec : SessionData) (h : (step8Save d).1 = some rec) :
    rec = d := by
  unfold step8Save at h
  split at h <;> simp_all

/-- The truncation `str[:5000]` bounds the length by 5000. -/
theorem pyTake_length (s : String) (n : Nat) : (pyTake s n).length ≤ n := by
  simp only [pyTake, String.length]
  simp [List.length_take_le]

/-- C9 (amended): in the persisted session record the `research_summary`,
`proposal_summary` and `call_transcript` fields are capped at 5000
characters before the write, while the remaining text fields
(`session_id`, `lead_place_id`, `business_name`, `email_subject`,
`created_at`) are written uncapped. -/
theorem C9_truncation (cfg : PipelineConfig) (req : SDRReq)
    (o1 o2 o3 o4 o5 : Except String String) (o6 : Except String DeckResponse)
    (o7 : Except String EmailSendResult) (os ou : String)
    (now : PyDateTime) (sid cat : String) (rec : SessionData)
    (h : (run_sdr cfg req ⟨o1, o2, o3, o4, o5, o6, o7, os, ou⟩ now sid
        cat).savedRecord = some rec) :
    rec.research_summary.length ≤ 5000 ∧
    rec.proposal_summary.length ≤ 5000 ∧
    rec.call_transcript.length ≤ 5000 ∧
    rec.business_name = req.business_name ∧
    rec.session_id = sid ∧
    rec.lead_place_id = req.place_id ∧
    rec.created_at = cat := by
  have hrec := step8Save_some _ rec h
  subst hrec
  exact ⟨pyTake_length _ _, pyTake_length _ _, pyTake_length _ _, rfl, rfl, rfl, rfl⟩

/-- C8, witness: an explicit request email wins the resolution. -/
theorem C8_witness :
    (run_sdr ⟨"fb@x.io", "s@x.io"⟩
        { business_name := "Biz", email := "ceo@biz.io", skip_call := true }
        ⟨.ok "r", .ok "p", .ok "f", .ok "", .ok "other", .error "d", .error "m",
         "", ""⟩
        ⟨700, 0, 0⟩ "sid" "cat").email_to = "ceo@biz.io" :=
  (C8_email_resolution ⟨"fb@x.io", "s@x.io"⟩
    { business_name := "Biz", email := "ceo@biz.io", skip_call := true }
    (.ok "r") (.ok "p") (.ok "f") (.ok "") (.ok "other") (.error "d") (.error "m")
    "" "" ⟨700, 0, 0⟩ "sid" "cat").1 (by decide)

/-- C9, witness: a concrete run whose saved record shows the three
capped fields within bound and the others passed through. -/
theorem C9_witness :
    (SessionData.research_summary
        { session_id := "sid", lead_place_id := "", business_name := "Biz",
          research_summary := "r", proposal_summary := "f",
          call_transcript := "", call_outcome := "other", email_sent := true,
          email_subject := "Website Proposal for Biz — RapidReach",
          created_at := "cat" }).length ≤ 5000 ∧
    (SessionData.proposal_summary
        { session_id := "sid", lead_place_id := "", business_name := "Biz",
          research_summary := "r", proposal_summary := "f",
          call_transcript := "", call_outcome := "other", email_sent := true,
          email_subject := "Website Proposal for Biz — RapidReach",
          created_at := "cat" }).length ≤ 5000 ∧
    (SessionData.call_transcript
        { session_id := "sid", lead_place_id := "", business_name := "Biz",
          research_summary := "r", proposal_summary := "f",
          call_transcript := "", call_outcome := "other", email_sent := true,
          email_subject := "Website Proposal for Biz — RapidReach",
          created_at := "cat" }).length ≤ 5000 ∧
    SessionData.business_name
        { session_id := "sid", lead_place_id := "", business_name := "Biz",
          research_summary := "r", proposal_summary := "f",
          call_transcript := "", call_outcome := "other", email_sent := true,
          email_subject := "Website Proposal for Biz — RapidReach",
          created_at := "cat" } =
      SDRReq.business_name
        { business_name := "Biz", email := "ceo@biz.io", skip_call := true } ∧
    SessionData.session_id
        { session_id := "sid", lead_place_id := "", business_name := "Biz",
          research_summary := "r", proposal_summary := "f",
          call_transcript := "", call_outcome := "other", email_sent := true,
          email_subject := "Website Proposal for Biz — RapidReach",
          created_at := "cat" } = "sid" ∧
    SessionData.lead_place_id
        { session_id := "sid", lead_place_id := "", business_name := "Biz",
          research_summary := "r", proposal_summary := "f",
          call_transcript := "", call_outcome := "other", email_sent := true,
          email_subject := "Website Proposal for Biz — RapidReach",
          created_at := "cat" } =
      SDRReq.place_id
        { business_name := "Biz", email := "ceo@biz.io", skip_call := true } ∧
    SessionData.created_at
        { session_id := "sid", lead_place_id := "", business_name := "Biz",
          research_summary := "r", proposal_summary := "f",
          call_transcript := "", call_outcome := "other", email_sent := true,
          email_subject := "Website Proposal for Biz — RapidReach",
          created_at := "cat" } = "cat" :=
  C9_truncation ⟨"fb@x.io", "s@x.io"⟩
    { business_name := "Biz", email := "ceo@biz.io", skip_call := true }
    (.ok "r") (.ok "p") (.ok "f") (.ok "") (.ok "other") (.error "d")
    (.ok { success := true }) "" "" ⟨700, 0, 0⟩ "sid" "cat"
    { session_id := "sid", lead_place_id := "", business_name := "Biz",
      research_summary := "r", proposal_summary := "f",
      call_transcript := "", call_outcome := "other", email_sent := true,
      email_subject := "Website Proposal for Biz — RapidReach",
      created_at := "cat" } (by decide)

/-! ## Helper lemmas about email-candidate ranking -/

theorem mem_insertByPrio (x y : Nat × String) (l : List (Nat × String)) :
    y ∈ insertByPrio x l ↔ y = x ∨ y ∈ l := by
  induction l with
  | nil => simp [insertByPrio]
  | cons a as ih =>
    simp only [insertByPrio]
    split <;> simp only [List.mem_cons, ih]
    · tauto

theorem mem_sortByPrioDesc (y : Nat × String) (l : List (Nat × String)) :
    y ∈ sortByPrioDesc l ↔ y ∈ l := by
  induction l with
  | nil => simp [sortByPrioDesc]
  | cons a as ih =>
    show y ∈ insertByPrio a (sortByPrioDesc as) ↔ _
    rw [mem_insertByPrio, ih, List.mem_cons]

theorem insertByPrio_front (x : Nat × String) (l : List (Nat × String))
    (h : ∀ y ∈ l, y.1 ≤ x.1) : insertByPrio x l = x :: l := by
  cases l with
  | nil => rfl
  | cons a as =>
    simp only [insertByPrio]
    rw [if_neg (Nat.not_lt.mpr (h a (by simp)))]

/-- Stability of the sort: a leading block of top-priority (100)
candidates stays in front, in order, of everything of lower priority. -/
theorem sortByPrioDesc_top_block (l1 l2 : List (Nat × String))
    (h1 : ∀ p ∈ l1, p.1 = 100) (h2 : ∀ p ∈ l2, p.1 < 100) :
    sortByPrioDesc (l1 ++ l2) = l1 ++ sortByPrioDesc l2 := by
  induction l1 with
  | nil => simp
  | cons a as ih =>
    have ha : a.1 = 100 := h1 a (by simp)
    show insertByPrio a (sortByPrioDesc (as ++ l2)) = _
    rw [ih (fun p hp => h1 p (by simp [hp]))]
    rw [insertByPrio_front]
    · exact (List.cons_append a as (sortByPrioDesc l2)).symm
    · intro y hy
      rcases List.mem_append.mp hy with hy | hy
      · rw [h1 y (by simp [hy]), ha]
      · rw [ha]
        exact Nat.le_of_lt (h2 y ((mem_sortByPrioDesc y l2).mp hy))

theorem pairwise_insertByPrio (x : Nat × String) (l : List (Nat × String))
    (h : List.Pairwise (fun a b => b.1 ≤ a.1) l) :
    List.Pairwise (fun a b => b.1 ≤ a.1) (insertByPrio x l) := by
  induction l with
  | nil => simp [insertByPrio]
  | cons a as ih =>
    rcases List.pairwise_cons.mp h with ⟨ha, has⟩
    simp only [insertByPrio]
    split
    · rename_i hlt
      refine List.pairwise_cons.mpr ⟨?_, ih has⟩
      intro y hy
      rcases (mem_insertByPrio x y as).mp hy with rfl | hy
      · exact Nat.le_of_lt hlt
      · exact ha y hy
    · rename_i hge
      refine List.pairwise_cons.mpr ⟨?_, h⟩
      intro y hy
      rcases List.mem_cons.mp hy with rfl | hy
      · exact Nat.not_lt.mp hge
      · exact Nat.le_trans (ha y hy) (Nat.not_lt.mp hge)

/-- The sorted candidate list is priority-descending. -/
theorem pairwise_sortByPrioDesc (l : List (Nat × String)) :
    List.Pairwise (fun a b => b.1 ≤ a.1) (sortByPrioDesc l) := by
  induction l with
  | nil => simp [sortByPrioDesc]
  | cons a as ih => exact pairwise_insertByPrio a _ ih

theorem dedupRanked_sublist (seen : List String) (l : List (Nat × String)) :
    (dedupRanked seen l).Sublist l := by
  induction l generalizing seen with
  | nil => simp [dedupRanked]
  | cons a as ih =>
    rcases a with ⟨p, e⟩
    simp only [dedupRanked]
    split
    · exact List.Sublist.cons _ (ih seen)
    · exact List.Sublist.cons₂ _ (ih (e :: seen))

theorem dedupRanked_not_seen (seen : List String) (l : List (Nat × String)) :
    ∀ e ∈ (dedupRanked seen l).map Prod.snd, ¬ e ∈ seen := by
  induction l generalizing seen with
  | nil => simp [dedupRanked]
  | cons a as ih =>
    rcases a with ⟨p, e0⟩
    simp only [dedupRanked]
    split
    · exact ih seen
    · rename_i hns
      intro e he
      simp only [List.map_cons, List.mem_cons] at he
      rcases he with rfl | he
      · simpa using hns
      · have := ih (e0 :: seen) e he
        simp only [List.mem_cons] at this
        tauto

/-- The de-duplication loop produces pairwise-distinct emails. -/
theorem dedupRanked_nodup (seen : List String) (l : List (Nat × String)) :
    ((dedupRanked seen l).map Prod.snd).Nodup := by
  induction l generalizing seen with
  | nil => simp [dedupRanked]
  | cons a as ih =>
    rcases a with ⟨p, e⟩
    simp only [dedupRanked]
    split
    · exact ih seen
    · simp only [List.map_cons]
      refine List.nodup_cons.mpr ⟨?_, ih (e :: seen)⟩
      intro hmem
      exact dedupRanked_not_seen (e :: seen) as e hmem (by simp)

theorem form1Candidates_prio (t : Chars) : ∀ p ∈ form1Candidates t, p.1 = 100 := by
  intro p hp
  simp only [form1Candidates, List.mem_map] at hp
  obtain ⟨m, -, rfl⟩ := hp
  rfl

theorem form2Candidates_prio (t : Chars) : ∀ p ∈ form2Candidates t, p.1 = 90 := by
  intro p hp
  obtain ⟨m, -, hm⟩ := List.mem_filterMap.mp hp
  split at hm
  · split at hm
    · exact absurd hm (by simp)
    · obtain rfl := Option.some.inj hm
      rfl
  · exact absurd hm (by simp)

theorem form3Candidates_prio (t : Chars) : ∀ p ∈ form3Candidates t, p.1 = 85 := by
  intro p hp
  obtain ⟨m, -, hm⟩ := List.mem_filterMap.mp hp
  split at hm
  · split at hm
    · exact absurd hm (by simp)
    · obtain rfl := Option.some.inj hm
      rfl
  · exact absurd hm (by simp)

theorem form4Candidates_prio (t : Chars) : ∀ p ∈ form4Candidates t, p.1 = 80 := by
  intro p hp
  obtain ⟨m, -, hm⟩ := List.mem_filterMap.mp hp
  split at hm
  · rcases Option.map_eq_some'.mp hm with ⟨c, -, rfl⟩
    rfl
  · exact absurd hm (by simp)

theorem form5Candidates_prio (t : Chars) : ∀ p ∈ form5Candidates t, p.1 = 75 := by
  intro p hp
  obtain ⟨m, -, hm⟩ := List.mem_filterMap.mp hp
  split at hm
  · rcases Option.map_eq_some'.mp hm with ⟨c, -, rfl⟩
    rfl
  · exact absurd hm (by simp)

theorem restCandidates_prio (t : Chars) :
    ∀ p ∈ form2Candidates t ++ form3Candidates t ++ form4Candidates t ++
        form5Candidates t, p.1 < 100 := by
  intro p hp
  simp only [List.mem_append] at hp
  rcases hp with ((hp | hp) | hp) | hp
  · rw [form2Candidates_prio t p hp]; decide
  · rw [form3Candidates_prio t p hp]; decide
  · rw [form4Candidates_prio t p hp]; decide
  · rw [form5Candidates_prio t p hp]; decide

/-! ## Claims about email extraction -/

/-- A whole string matching the standard literal pattern
`[A-Za-z0-9._%+-]+@[A-Za-z0-9.-]+\.[A-Za-z]{2,}`. -/
def fullMatch (t : Chars) (re : RE) : Bool :=
  (mmatch t (engineFuel t) re 0 []
    (fun j g => if j = t.size then some (g, j) else none)).isSome

def isWellFormedEmail (s : String) : Bool := fullMatch (toChars s) emailRe1

/-- Substring occurrence. -/
def strContains (t s : String) : Bool :=
  (List.range (t.length + 1)).any (fun i => (t.data.drop i).take s.length == s.data)

/-- C4, counterexample to the claim as stated: `"a@b.com"` is a
well-formed literal email contained in the transcript
`"b@c.com a@b.com"`, yet it is not the first candidate returned —
another literal match precedes it, so not *every* contained well-formed
email can be the top-priority candidate. -/
theorem C4_counterexample :
    isWellFormedEmail "a@b.com" = true ∧
    strContains "b@c.com a@b.com" "a@b.com" = true ∧
    extract_emails_from_transcript "b@c.com a@b.com" = ["b@c.com", "a@b.com"] ∧
    (extract_emails_from_transcript "b@c.com a@b.com").head? ≠ some "a@b.com" :=
  ⟨by decide, by decide,
   by set_option maxRecDepth 10000 in decide,
   by set_option maxRecDepth 10000 in decide⟩

/-- C4 (amended): whenever the standard literal pattern matches, the
*leftmost* such match is returned as the first candidate, lower-cased
(and stripped of surrounding dots); the returned list never contains
duplicates, and the ranked candidates are ordered by descending per-form
priority. -/
theorem C4_extraction_order (text : String) :
    (∀ c cs, form1Candidates (toChars text) = c :: cs →
      (extract_emails_from_transcript text).head? = some (normEmail c.2)) ∧
    (extract_emails_from_transcript text).Nodup ∧
    List.Pairwise (fun a b => b.1 ≤ a.1) (rankedEmails text) := by
  refine ⟨?_, ?_, ?_⟩
  · intro c cs hform
    have hsplit : allCandidates text =
        form1Candidates (toChars text) ++
          (form2Candidates (toChars text) ++ form3Candidates (toChars text) ++
            form4Candidates (toChars text) ++ form5Candidates (toChars text)) := by
      simp [allCandidates, List.append_assoc]
    have hsort := sortByPrioDesc_top_block (form1Candidates (toChars text))
      (form2Candidates (toChars text) ++ form3Candidates (toChars text) ++
        form4Candidates (toChars text) ++ form5Candidates (toChars text))
      (form1Candidates_prio _) (restCandidates_prio _)
    unfold extract_emails_from_transcript rankedEmails
    rw [hsplit, hsort, hform]
    simp [dedupRanked]
  · exact dedupRanked_nodup [] _
  · exact List.Pairwise.sublist (dedupRanked_sublist [] _)
      ((List.pairwise_map).mpr (pairwise_sortByPrioDesc _))

/-- C4, witness: a transcript with a single literal email returns it,
lower-cased, as the sole candidate. -/
theorem C4_witness :
    (extract_emails_from_transcript "Reach me at U@v.com thanks").head? =
      some (normEmail "U@v.com") :=
  (C4_extraction_order "Reach me at U@v.com thanks").1 (100, "U@v.com")
    [] (by set_option maxRecDepth 10000 in decide)

/-- C7: the dictated forms `"tm07march at gmail dot com"` and
`"T M zero seven M A R C H at gmail dot com"` both extract to the single
candidate `tm07march@gmail.com` — number words replaced by digits, no
internal spaces, ending in `@gmail.com`. -/
theorem C7_spoken_forms :
    extract_emails_from_transcript "tm07march at gmail dot com" =
      ["tm07march@gmail.com"] ∧
    extract_emails_from_transcript "T M zero seven M A R C H at gmail dot com" =
      ["tm07march@gmail.com"] :=
  ⟨by set_option maxRecDepth 10000 in decide,
   by set_option maxRecDepth 20000 in decide⟩

end RapidReach
